import Mathlib

/-!
Shallow embedding of bezier-easing-rs (src/lib.rs), a Rust port of
Gaëtan Renaudeau's bezier-easing, over exact rationals.

Machine `f32` arithmetic is modelled by `ℚ`: every operation the source
performs (`+`, `-`, `*`, `/`, comparisons, `abs`) is carried out exactly.
The source constant `K_SAMPLE_STEP_SIZE = 1.0 / 10.0` is the exact `1/10`
here.  Loops (`while`/`for` with a fixed bound) become fuel-indexed
structural recursions whose fuel equals the source's iteration bound, so
the base case of each recursion is unreachable on the arguments the
program actually passes.

`binary_subdivide` is embedded exactly as the Rust source has it: the
mutable bisection bounds are initialised from the two trailing parameters
(at the call site these are the control coordinates `m_x1`, `m_x2`), and
`calc_bezier` is applied to the two leading parameters (at the call site
the bracketing interval bounds).  A second definition,
`binary_subdivide_spec`, follows the specification's words (bisect the
bracketing interval, evaluate the curve at the control coordinates) for
comparison with the source behaviour.
-/

namespace BezierEasing

/-- Source constant NEWTON_ITERATIONS. -/
def NEWTON_ITERATIONS : ℕ := 4

/-- Source constant NEWTON_MIN_SLOPE (0.001). -/
def NEWTON_MIN_SLOPE : ℚ := 1 / 1000

/-- Source constant SUBDIVISION_PRECISION (0.0000001). -/
def SUBDIVISION_PRECISION : ℚ := 1 / 10000000

/-- Source constant SUBDIVISION_MAX_ITERATIONS. -/
def SUBDIVISION_MAX_ITERATIONS : ℕ := 10

/-- Source constant K_SPLINE_TABLE_SIZE. -/
def K_SPLINE_TABLE_SIZE : ℕ := 11

/-- Source constant K_SAMPLE_STEP_SIZE = 1.0 / (K_SPLINE_TABLE_SIZE - 1). -/
def K_SAMPLE_STEP_SIZE : ℚ := 1 / ((K_SPLINE_TABLE_SIZE - 1 : ℕ) : ℚ)

/-- Source error message of BezierEasingError. -/
def invalidMessage : String := r"x values must be in [0, 1]"

/-- Source helper a: 1.0 - 3.0 * a_a2 + 3.0 * a_a1. -/
def a (a_a1 a_a2 : ℚ) : ℚ := 1 - 3 * a_a2 + 3 * a_a1

/-- Source helper b: 3.0 * a_a2 - 6.0 * a_a1. -/
def b (a_a1 a_a2 : ℚ) : ℚ := 3 * a_a2 - 6 * a_a1

/-- Source helper c: 3.0 * a_a1. -/
def c (a_a1 : ℚ) : ℚ := 3 * a_a1

/-- Source calc_bezier: ((a*t + b)*t + c)*t, Horner form of the
one-coordinate cubic Bézier polynomial. -/
def calc_bezier (a_t a_a1 a_a2 : ℚ) : ℚ :=
  ((a a_a1 a_a2 * a_t + b a_a1 a_a2) * a_t + c a_a1) * a_t

/-- Source get_slope: 3a*t^2 + 2b*t + c, derivative of calc_bezier in t. -/
def get_slope (a_t a_a1 a_a2 : ℚ) : ℚ :=
  3 * a a_a1 a_a2 * a_t * a_t + 2 * b a_a1 a_a2 * a_t + c a_a1

/-- Loop body of the source binary_subdivide.  The fuel counts the
remaining loop iterations after the current one (the source runs
`while i < SUBDIVISION_MAX_ITERATIONS`), so the `0` base case is never
reached from a positive initial fuel: the last iteration is the
`fuel + 1` case with `fuel = 0`, which stops and returns `current_t`.
Exactly as in the Rust source, the bisected bounds are `m_x1`, `m_x2`
while `calc_bezier` receives `a_a`, `a_b`. -/
def binary_subdivide_loop (a_x a_a a_b : ℚ) : ℕ → ℚ → ℚ → ℚ
  | 0, m_x1, m_x2 => m_x1 + (m_x2 - m_x1) / 2
  | fuel + 1, m_x1, m_x2 =>
    let current_t := m_x1 + (m_x2 - m_x1) / 2
    let current_x := calc_bezier current_t a_a a_b - a_x
    let new_x1 := if current_x > 0 then m_x1 else current_t
    let new_x2 := if current_x > 0 then current_t else m_x2
    if |current_x| < SUBDIVISION_PRECISION then current_t
    else if fuel = 0 then current_t
    else binary_subdivide_loop a_x a_a a_b fuel new_x1 new_x2

/-- Source binary_subdivide(a_x, a_a, a_b, m_x1, m_x2). -/
def binary_subdivide (a_x a_a a_b m_x1 m_x2 : ℚ) : ℚ :=
  binary_subdivide_loop a_x a_a a_b SUBDIVISION_MAX_ITERATIONS m_x1 m_x2

/-- Loop body of the source newton_raphson_iterate: at each iteration,
return the current guess if the slope there is exactly zero, otherwise
apply one Newton update. -/
def newton_raphson_loop (a_x a_a a_b : ℚ) : ℕ → ℚ → ℚ
  | 0, guess_t => guess_t
  | fuel + 1, guess_t =>
    let current_slope := get_slope guess_t a_a a_b
    if current_slope = 0 then guess_t
    else
      newton_raphson_loop a_x a_a a_b fuel
        (guess_t - (calc_bezier guess_t a_a a_b - a_x) / current_slope)

/-- Source newton_raphson_iterate: NEWTON_ITERATIONS guarded updates. -/
def newton_raphson_iterate (a_x a_guess_t a_a a_b : ℚ) : ℚ :=
  newton_raphson_loop a_x a_a a_b NEWTON_ITERATIONS a_guess_t

/-- Source linear_easing: the identity. -/
def linear_easing (x : ℚ) : ℚ := x

/-- Source calc_sample_values: entry i of the 11-entry sample table,
calc_bezier(i * K_SAMPLE_STEP_SIZE, m_x1, m_x2). -/
def calc_sample_values (m_x1 m_x2 : ℚ) (i : ℕ) : ℚ :=
  calc_bezier ((i : ℚ) * K_SAMPLE_STEP_SIZE) m_x1 m_x2

/-- Bracketing scan of the source get_t_for_x: starting from
current_sample = 1 and interval_start = 0, advance while
current_sample differs from the last sample index and the sample value
there is at most x.  Fuel K_SPLINE_TABLE_SIZE - 1 covers the at most 9
iterations the source loop can make. -/
def sample_scan (x m_x1 m_x2 : ℚ) : ℕ → ℕ → ℚ → ℕ × ℚ
  | 0, cs, istart => (cs, istart)
  | fuel + 1, cs, istart =>
    if cs ≠ K_SPLINE_TABLE_SIZE - 1 ∧ calc_sample_values m_x1 m_x2 cs ≤ x then
      sample_scan x m_x1 m_x2 fuel (cs + 1) (istart + K_SAMPLE_STEP_SIZE)
    else (cs, istart)

/-- Value of interval_start when the scan loop of get_t_for_x exits. -/
def interval_start (x m_x1 m_x2 : ℚ) : ℚ :=
  (sample_scan x m_x1 m_x2 (K_SPLINE_TABLE_SIZE - 1) 1 0).2

/-- Value of current_sample after the post-loop decrement in
get_t_for_x. -/
def current_sample (x m_x1 m_x2 : ℚ) : ℕ :=
  (sample_scan x m_x1 m_x2 (K_SPLINE_TABLE_SIZE - 1) 1 0).1 - 1

/-- The linear-interpolation guess guess_for_t of the source
get_t_for_x: interval_start + dist * K_SAMPLE_STEP_SIZE, where dist
interpolates x between the bracketing samples. -/
def guess_for_t (x m_x1 m_x2 : ℚ) : ℚ :=
  let cs := current_sample x m_x1 m_x2
  let dist := (x - calc_sample_values m_x1 m_x2 cs) /
    (calc_sample_values m_x1 m_x2 (cs + 1) - calc_sample_values m_x1 m_x2 cs)
  interval_start x m_x1 m_x2 + dist * K_SAMPLE_STEP_SIZE

/-- Source get_t_for_x: linear bracketing followed by the three-way
dispatch on the slope at the interpolation guess. -/
def get_t_for_x (x m_x1 m_x2 : ℚ) : ℚ :=
  let guess := guess_for_t x m_x1 m_x2
  let initial_slope := get_slope guess m_x1 m_x2
  if NEWTON_MIN_SLOPE ≤ initial_slope then newton_raphson_iterate x guess m_x1 m_x2
  else if initial_slope = 0 then guess
  else
    binary_subdivide x (interval_start x m_x1 m_x2)
      (interval_start x m_x1 m_x2 + K_SAMPLE_STEP_SIZE) m_x1 m_x2

/-- The closure returned by the source bezier_easing on success:
linear fast path when x1 = y1 and x2 = y2, exact endpoint fast path at
x = 0 and x = 1, otherwise solve for t and evaluate the y-curve. -/
def ease (m_x1 m_y1 m_x2 m_y2 x : ℚ) : ℚ :=
  if m_x1 = m_y1 ∧ m_x2 = m_y2 then linear_easing x
  else if x = 0 ∨ x = 1 then x
  else calc_bezier (get_t_for_x x m_x1 m_x2) m_y1 m_y2

/-- Source bezier_easing: validate that both x-control coordinates lie
in [0, 1] (inclusive) and return the easing closure, otherwise the
BezierEasingError message. -/
def bezier_easing (m_x1 m_y1 m_x2 m_y2 : ℚ) : Except String (ℚ → ℚ) :=
  if (0 ≤ m_x1 ∧ m_x1 ≤ 1) ∧ (0 ≤ m_x2 ∧ m_x2 ≤ 1) then
    Except.ok (ease m_x1 m_y1 m_x2 m_y2)
  else Except.error invalidMessage

/-- An f32 value for the validation model: either NaN or a finite value
(finite values carried exactly; the validation comparisons involve no
rounding). -/
inductive FloatVal where
  | nan : FloatVal
  | num : ℚ → FloatVal

/-- IEEE-style comparison used by the source range check
(0.0..=1.0).contains: any comparison with NaN is false. -/
def FloatVal.le : FloatVal → FloatVal → Bool
  | FloatVal.num p, FloatVal.num q => decide (p ≤ q)
  | _, _ => false

/-- The source range check (0.0..=1.0).contains(v). -/
def range_contains (v : FloatVal) : Bool :=
  FloatVal.le (FloatVal.num 0) v && FloatVal.le v (FloatVal.num 1)

/-- The validation and return structure of the source bezier_easing over
IEEE-style values: on success the closure capturing the four control
coordinates is produced (represented by the captured quadruple), on
failure the BezierEasingError message. -/
def bezier_easing_float_check (m_x1 m_y1 m_x2 m_y2 : FloatVal) :
    Except String (FloatVal × FloatVal × FloatVal × FloatVal) :=
  if range_contains m_x1 && range_contains m_x2 then
    Except.ok (m_x1, m_y1, m_x2, m_y2)
  else Except.error invalidMessage

/-- Loop body of binary subdivision as the specification words it
(and as the cited reference implementation has it): bisect the
bracketing interval [a_a, a_b] and evaluate calc_bezier at the control
coordinates m_x1, m_x2.  Same fuel discipline as
binary_subdivide_loop. -/
def binary_subdivide_spec_loop (a_x m_x1 m_x2 : ℚ) : ℕ → ℚ → ℚ → ℚ
  | 0, a_a, a_b => a_a + (a_b - a_a) / 2
  | fuel + 1, a_a, a_b =>
    let current_t := a_a + (a_b - a_a) / 2
    let current_x := calc_bezier current_t m_x1 m_x2 - a_x
    let new_a := if current_x > 0 then a_a else current_t
    let new_b := if current_x > 0 then current_t else a_b
    if |current_x| < SUBDIVISION_PRECISION then current_t
    else if fuel = 0 then current_t
    else binary_subdivide_spec_loop a_x m_x1 m_x2 fuel new_a new_b

/-- Binary subdivision as the specification words it: bisection over
the bracketing interval [a_a, a_b] of the curve with control
coordinates m_x1, m_x2. -/
def binary_subdivide_spec (a_x a_a a_b m_x1 m_x2 : ℚ) : ℚ :=
  binary_subdivide_spec_loop a_x m_x1 m_x2 SUBDIVISION_MAX_ITERATIONS a_a a_b

/-- One unguarded Newton update, as named by the specification. -/
def newton_step (target_x a_a a_b t : ℚ) : ℚ :=
  t - (calc_bezier t a_a a_b - target_x) / get_slope t a_a a_b

/-- Newton iteration as the specification words it: exactly 4 fixed
iterations of the update, except that an iteration that starts with a
slope of exactly zero returns the current t immediately. -/
def newton_raphson_spec (target_x guess_t a_a a_b : ℚ) : ℚ :=
  if get_slope guess_t a_a a_b = 0 then guess_t else
  let t1 := newton_step target_x a_a a_b guess_t
  if get_slope t1 a_a a_b = 0 then t1 else
  let t2 := newton_step target_x a_a a_b t1
  if get_slope t2 a_a a_b = 0 then t2 else
  let t3 := newton_step target_x a_a a_b t2
  if get_slope t3 a_a a_b = 0 then t3 else
  newton_step target_x a_a a_b t3

attribute [local semireducible] Rat.add Rat.sub Rat.mul Rat.inv

/-- Helper: the eleven sample values are strictly increasing for
x-control coordinates in [0, 1]; in exact arithmetic the bracketing
samples of get_t_for_x are never equal. -/
theorem calc_sample_values_strict_mono (m_x1 m_x2 : ℚ)
    (h0 : 0 ≤ m_x1) (h1 : m_x1 ≤ 1) (h2 : 0 ≤ m_x2) (h3 : m_x2 ≤ 1)
    (i : ℕ) (hi : i ≤ 9) :
    calc_sample_values m_x1 m_x2 i < calc_sample_values m_x1 m_x2 (i + 1) := by
  interval_cases i <;>
    (simp only [calc_sample_values, calc_bezier, a, b, c, K_SAMPLE_STEP_SIZE,
      K_SPLINE_TABLE_SIZE]; push_cast; ring_nf; nlinarith [h0, h1, h2, h3])

/-- C1: for every valid control quadruple with both x-control
coordinates in [0, 1], the easing function returned by bezier_easing
maps 0 to 0 and 1 to 1 exactly. -/
theorem bezier_easing_boundary_exact (m_x1 m_y1 m_x2 m_y2 : ℚ) (f : ℚ → ℚ)
    (h : bezier_easing m_x1 m_y1 m_x2 m_y2 = Except.ok f) :
    f 0 = 0 ∧ f 1 = 1 := by
  unfold bezier_easing at h
  split at h
  · cases h
    exact ⟨by simp [ease, linear_easing], by simp [ease, linear_easing]⟩
  · cases h

/-- Witness for C1 at the quadruple (0, 0, 1, 1/2). -/
theorem bezier_easing_boundary_exact_witness :
    ease 0 0 1 (1/2) 0 = 0 ∧ ease 0 0 1 (1/2) 1 = 1 :=
  bezier_easing_boundary_exact 0 0 1 (1/2) (ease 0 0 1 (1/2))
    (by unfold bezier_easing; rw [if_pos]; norm_num)

/-- C2: bezier_easing succeeds if and only if both x-control
coordinates lie in [0, 1], boundaries inclusive; the y-control
coordinates never cause failure, and on failure no easing function is
produced. -/
theorem bezier_easing_ok_iff (m_x1 m_y1 m_x2 m_y2 : ℚ) :
    (∃ f, bezier_easing m_x1 m_y1 m_x2 m_y2 = Except.ok f) ↔
      (0 ≤ m_x1 ∧ m_x1 ≤ 1) ∧ (0 ≤ m_x2 ∧ m_x2 ≤ 1) := by
  unfold bezier_easing
  split
  · rename_i hc
    exact ⟨fun _ => hc, fun _ => ⟨_, rfl⟩⟩
  · rename_i hc
    constructor
    · rintro ⟨f, hf⟩
      cases hf
    · intro hv
      exact absurd hv hc

/-- C3: whenever x1 = y1 and x2 = y2 and creation succeeds, the
returned easing function is the identity on every input. -/
theorem bezier_easing_linear_identity (m_x1 m_y1 m_x2 m_y2 v : ℚ) (f : ℚ → ℚ)
    (hxy1 : m_x1 = m_y1) (hxy2 : m_x2 = m_y2)
    (h : bezier_easing m_x1 m_y1 m_x2 m_y2 = Except.ok f) : f v = v := by
  unfold bezier_easing at h
  split at h
  · cases h
    simp [ease, linear_easing, hxy1, hxy2]
  · cases h

/-- Witness for C3 at the quadruple (1/2, 1/2, 1/3, 1/3) and input
7/5. -/
theorem bezier_easing_linear_identity_witness :
    ease (1/2) (1/2) (1/3) (1/3) (7/5) = 7/5 :=
  bezier_easing_linear_identity (1/2) (1/2) (1/3) (1/3) (7/5)
    (ease (1/2) (1/2) (1/3) (1/3)) rfl rfl
    (by unfold bezier_easing; rw [if_pos]; norm_num)

/-- C4: evaluation of the code at a failing input.  At
x = 4997/10000 with control coordinates x1 = 1, x2 = 0, the slope at
the interpolation guess lies strictly between 0 and NEWTON_MIN_SLOPE,
so the claimed binary-subdivision branch is the one taken; the
bracketing interval is [2/5, 2/5 + 1/10], yet the code returns 1/1024,
below the interval's lower end, while binary subdivision on
[intervalStart, intervalStart + step] as the specification words it
returns 4689/10240.  The Rust port bisects over its mutable copies of
the control coordinates and hands the interval bounds to calc_bezier
as curve coefficients, inverting the roles the cited reference
implementation gives these parameters. -/
theorem get_t_for_x_subdivision_divergence :
    0 < get_slope (guess_for_t (4997/10000) 1 0) 1 0 ∧
    get_slope (guess_for_t (4997/10000) 1 0) 1 0 < NEWTON_MIN_SLOPE ∧
    interval_start (4997/10000) 1 0 = 2/5 ∧
    get_t_for_x (4997/10000) 1 0 = 1/1024 ∧
    binary_subdivide_spec (4997/10000) (2/5) (2/5 + K_SAMPLE_STEP_SIZE) 1 0 = 4689/10240 ∧
    get_t_for_x (4997/10000) 1 0 < interval_start (4997/10000) 1 0 := by
  decide

/-- C5: newton_raphson_iterate coincides with the specification's
description: exactly 4 fixed iterations of the Newton update, except
that an iteration starting with slope exactly 0 returns the current t
immediately, so the update's division never runs with a zero
denominator. -/
theorem newton_raphson_iterate_eq_spec (a_x a_guess_t a_a a_b : ℚ) :
    newton_raphson_iterate a_x a_guess_t a_a a_b =
      newton_raphson_spec a_x a_guess_t a_a a_b := rfl

/-- C7 counterexample: the t returned by the solver is not
non-decreasing in x, even for valid control coordinates and inputs
inside [0, 1]. -/
theorem get_t_for_x_not_monotone :
    ¬ ∀ m_x1 m_x2 u v : ℚ, 0 ≤ m_x1 → m_x1 ≤ 1 → 0 ≤ m_x2 → m_x2 ≤ 1 →
        0 ≤ u → u ≤ 1 → 0 ≤ v → v ≤ 1 → u < v →
        get_t_for_x u m_x1 m_x2 ≤ get_t_for_x v m_x1 m_x2 := by
  intro h
  have h2 := h 1 0 (4991/10000) (4993/10000) (by norm_num) (by norm_num)
    (by norm_num) (by norm_num) (by norm_num) (by norm_num) (by norm_num)
    (by norm_num) (by norm_num)
  revert h2
  decide

/-- C7 amended: the solver's output is not monotone in x; at control
coordinates x1 = 1, x2 = 0 it strictly decreases between the inputs
4991/10000 and 4993/10000, and the decrease there is below 1/200, the
scale of the solver's approximation error. -/
theorem get_t_for_x_monotonicity_violation :
    (4991/10000 : ℚ) < 4993/10000 ∧
    get_t_for_x (4993/10000) 1 0 < get_t_for_x (4991/10000) 1 0 ∧
    get_t_for_x (4991/10000) 1 0 - get_t_for_x (4993/10000) 1 0 < 1/200 := by
  decide

/-- C8: for x-control coordinates in [0, 1], entry i of the sample
table equals the curve value at i/10, and the table is non-decreasing
in i. -/
theorem calc_sample_values_monotone (m_x1 m_x2 : ℚ)
    (h0 : 0 ≤ m_x1) (h1 : m_x1 ≤ 1) (h2 : 0 ≤ m_x2) (h3 : m_x2 ≤ 1)
    (i : ℕ) (hi : i ≤ 9) :
    calc_sample_values m_x1 m_x2 i = calc_bezier ((i : ℚ) / 10) m_x1 m_x2 ∧
    calc_sample_values m_x1 m_x2 i ≤ calc_sample_values m_x1 m_x2 (i + 1) := by
  constructor
  · have hstep : K_SAMPLE_STEP_SIZE = 1 / 10 := by
      norm_num [K_SAMPLE_STEP_SIZE, K_SPLINE_TABLE_SIZE]
    unfold calc_sample_values
    rw [hstep]
    ring_nf
  · exact le_of_lt (calc_sample_values_strict_mono m_x1 m_x2 h0 h1 h2 h3 i hi)

/-- Witness for C8 at x1 = 1, x2 = 0, i = 3. -/
theorem calc_sample_values_monotone_witness :
    calc_sample_values 1 0 3 = calc_bezier (((3 : ℕ) : ℚ) / 10) 1 0 ∧
    calc_sample_values 1 0 3 ≤ calc_sample_values 1 0 (3 + 1) :=
  calc_sample_values_monotone 1 0 (by norm_num) (by norm_num) (by norm_num)
    (by norm_num) 3 (by norm_num)

/-- C9: the easing function created from (0, 0, 1, 1/2) maps 0 to 0
and 1 to 1 exactly, and its value at 1/2 is within 1/10000 of
0.3125. -/
theorem bezier_easing_reference_scenario :
    ∃ f, bezier_easing 0 0 1 (1/2) = Except.ok f ∧
      f 0 = 0 ∧ f 1 = 1 ∧ |f (1/2) - 3125/10000| < 1/10000 := by
  refine ⟨ease 0 0 1 (1/2), ?_, ?_, ?_, ?_⟩
  · unfold bezier_easing
    rw [if_pos]
    norm_num
  · decide
  · decide
  · decide

/-- C10: a NaN x-control coordinate always fails the inclusive range
check, so bezier_easing returns the error and no easing function is
produced. -/
theorem bezier_easing_float_check_rejects_nan (m_x1 m_y1 m_x2 m_y2 : FloatVal) :
    bezier_easing_float_check FloatVal.nan m_y1 m_x2 m_y2 = Except.error invalidMessage ∧
    bezier_easing_float_check m_x1 m_y1 FloatVal.nan m_y2 = Except.error invalidMessage := by
  constructor
  · rfl
  · unfold bezier_easing_float_check
    have hc : range_contains FloatVal.nan = false := rfl
    rw [hc, Bool.and_false]
    rfl

end BezierEasing
